import Mathlib

/-!
Shallow embedding of `photos.py` (photo organizing script): data model and the
operations needed to settle the specification claims.  Machine floats are
modelled as exact rationals (`ℚ`), Python `datetime` values as integer
timestamps (seconds, via an order-preserving encoding), Python lists and dicts
as Lean lists / association lists, and raised-but-uncaught exceptions as
`Except.error`.
-/

namespace Photos

/-- Round a rational to the nearest integer, ties to even.  Models Python's
`round` builtin (banker's rounding) on exact decimal values; binary floating
point representation error is outside the model. -/
def round_half_to_even (q : ℚ) : ℤ :=
  let f := Rat.floor q
  let r := q - f
  if r < 1/2 then f
  else if 1/2 < r then f + 1
  else if f % 2 = 0 then f else f + 1

/-- Model of Python `round(q, k)`: round to `k` decimal places, ties to even. -/
def pyround (k : Nat) (q : ℚ) : ℚ :=
  (round_half_to_even (q * (10 ^ k : ℚ))) / (10 ^ k : ℚ)

/-- Model of a geopy `Location` object: `address` is the free-text full address
string (`location.address` in the source), `raw` is the `location.raw["address"]`
component dictionary, modelled as an association list from component kind to
display string. -/
structure Loc where
  address : String
  raw : List (String × String)
deriving DecidableEq, Repr

/-- Python truthiness of an optional string: `None` and `""` are falsy. -/
def strTruthy : Option String → Bool
  | none => false
  | some s => s ≠ ""

/-- Embeds `find_place` (photos.py lines 309-313): return the value of the
first key of `place_names` present in the address dictionary. -/
def find_place (addr : List (String × String)) : List String → Option String
  | [] => none
  | p :: rest =>
    match addr.lookup p with
    | some v => some v
    | none => find_place addr rest

/-- Model of Python `str.replace` for a single-character pattern and a
single-character replacement: substitute character `a` by `b` everywhere. -/
def replaceChar (s : String) (a b : Char) : String :=
  String.mk (s.data.map (fun c => if c = a then b else c))

/-- Embeds the sanitizing chain of photos.py line 126:
`.replace("/", "-").replace(".", "-").replace(":", "-")` (each pattern is a
single character, so each `replace` is a character substitution). -/
def sanitize (s : String) : String :=
  replaceChar (replaceChar (replaceChar s '/' '-') '.' '-') ':' '-'

/-- Embeds photos.py lines 111-113: the city search list is
`["village", "town", "city"]`, with `"suburb"` prepended when the address has a
`suburb` entry different from the already selected `place`. -/
def city_places_for (addr : List (String × String)) (place : Option String) : List String :=
  match addr.lookup "suburb" with
  | some s => if place ≠ some s then "suburb" :: ["village", "town", "city"] else ["village", "town", "city"]
  | none => ["village", "town", "city"]

/-- An EXIF rational value: a numerator/denominator pair. -/
structure ExifRat where
  num : Int
  den : Int
deriving DecidableEq, Repr

/-- Embeds `get_decimal_from_dms` (photos.py lines 316-326): convert a
degrees/minutes/seconds triple of EXIF rationals plus a hemisphere reference to
a signed decimal coordinate, rounded to 5 decimal places.  Division is exact
rational division (Python float division; a zero denominator, which would raise
`ZeroDivisionError` in Python, yields 0 here and is excluded by the validity
hypotheses of the theorems). -/
def get_decimal_from_dms (dms : ExifRat × ExifRat × ExifRat) (ref : String) : ℚ :=
  let degrees : ℚ := (dms.1.num : ℚ) / (dms.1.den : ℚ)
  let minutes : ℚ := (dms.2.1.num : ℚ) / (dms.2.1.den : ℚ) / 60
  let seconds : ℚ := (dms.2.2.num : ℚ) / (dms.2.2.den : ℚ) / 3600
  if ref = "S" ∨ ref = "W" then pyround 5 (-degrees + -minutes + -seconds)
  else pyround 5 (degrees + minutes + seconds)

/-- The named GPS fields produced by `get_geotagging` (photos.py lines 342-349).
The source translates numeric EXIF GPS tag ids to their names; the model starts
from the already-named fields. -/
structure Geotags where
  gpsLatitude : Option (ExifRat × ExifRat × ExifRat)
  gpsLatitudeRef : Option String
  gpsLongitude : Option (ExifRat × ExifRat × ExifRat)
  gpsLongitudeRef : Option String
deriving DecidableEq, Repr

/-- Embeds `get_coordinates` (photos.py lines 329-339): each axis is converted
only when both the DMS triple and the hemisphere reference are present. -/
def get_coordinates (geotags : Geotags) : Option ℚ × Option ℚ :=
  (match geotags.gpsLatitude, geotags.gpsLatitudeRef with
   | some dms, some ref => some (get_decimal_from_dms dms ref)
   | _, _ => none,
   match geotags.gpsLongitude, geotags.gpsLongitudeRef with
   | some dms, some ref => some (get_decimal_from_dms dms ref)
   | _, _ => none)

/-- Model of a decoded EXIF dictionary: the `DateTime` entry and the `GPSInfo`
payload (already in named `Geotags` form, see `get_geotagging`). -/
structure Exif where
  dateTime : Option String
  gpsInfo : Option Geotags
deriving DecidableEq, Repr

/-- Embeds `get_geotagging` (photos.py lines 342-349).  The source's renaming
of numeric tag ids is the identity here; an exif without `GPSInfo` yields
`none`.  (A present-but-empty `GPSInfo` dict is falsy in Python and skipped by
the caller; it corresponds to a `Geotags` value with all fields `none`, which
leads to the same `(None, None)` outcome through `get_coordinates`.) -/
def get_geotagging (exif : Exif) : Option Geotags :=
  exif.gpsInfo

/-- The geocoding cache `cache_loc` (photos.py line 27): a dict from rounded
coordinate key to the stored geopy location (which may itself be `None` when
the geocoder returned no result).  The Python key is the string
`f"{lat}-{lon}"` of the two rounded floats; distinct rounded pairs format to
distinct strings, so the key is modelled as the rounded pair itself. -/
abbrev Cache : Type := List ((ℚ × ℚ) × Option Loc)

/-- The geocoder adapter (`find_geo_location`, photos.py lines 302-306):
`geolocator.reverse` returns a location, or `None` when the service finds no
address, or raises (network failure), modelled as `Except.error`. -/
abbrev Geo : Type := ℚ → ℚ → Except String (Option Loc)

/-- Embeds `create_cache_loc_key` (photos.py lines 274-278): the pair of
coordinates rounded to 2 decimal places. -/
def create_cache_loc_key (lat lon : ℚ) : ℚ × ℚ :=
  (pyround 2 lat, pyround 2 lon)

/-- Dictionary lookup in the cache: `some v` when the key is present (bound to
`v`, itself possibly `none`), `none` when absent. -/
def cacheFind : List ((ℚ × ℚ) × Option Loc) → (ℚ × ℚ) → Option (Option Loc)
  | [], _ => none
  | (k, v) :: rest, key => if k = key then some v else cacheFind rest key

/-- Dictionary assignment in the cache: replace the binding of `key`, or append
it. -/
def cacheSet : List ((ℚ × ℚ) × Option Loc) → (ℚ × ℚ) → Option Loc → List ((ℚ × ℚ) × Option Loc)
  | [], key, v => [(key, v)]
  | (k, w) :: rest, key, v => if k = key then (k, v) :: rest else (k, w) :: cacheSet rest key v

/-- Embeds `find_cache_location` (photos.py lines 269-271):
`cache_loc[key] if key in cache_loc else None`.  A stored `None` and a missing
key are indistinguishable in the result. -/
def find_cache_location (cache : Cache) (lat lon : ℚ) : Option Loc :=
  match cacheFind cache (create_cache_loc_key lat lon) with
  | some v => v
  | none => none

/-- Embeds `save_cache_location` (photos.py lines 264-266). -/
def save_cache_location (cache : Cache) (lat lon : ℚ) (location : Option Loc) : Cache :=
  cacheSet cache (create_cache_loc_key lat lon) location

/-- Embeds the cache-or-geocode block of `extract_location_from_exif`
(photos.py lines 287-293): on a truthy cached value skip the adapter, otherwise
invoke it and store the result.  The third component counts adapter
invocations.  An adapter exception propagates to the enclosing `try` of the
caller (modelled in `extract_location_from_exif`). -/
def lookup_coords (geo : Geo) (cache : Cache) (lat lon : ℚ) :
    (Option Loc × Option String) × Cache × Nat :=
  match find_cache_location cache lat lon with
  | some cached_location => ((some cached_location, none), cache, 0)
  | none =>
    match geo lat lon with
    | Except.ok location => ((location, none), save_cache_location cache lat lon location, 1)
    | Except.error err => ((none, some err), cache, 1)

/-- Embeds `extract_location_from_exif` (photos.py lines 281-299).  Returns the
`(location, error)` pair of the source together with the updated cache and the
number of geocoder invocations.  Python's truthiness test
`if coords["lat"] and coords["lon"]` is false when either axis is `None` or
exactly `0.0`. -/
def extract_location_from_exif (geo : Geo) (cache : Cache) (exif : Exif) :
    (Option Loc × Option String) × Cache × Nat :=
  match get_geotagging exif with
  | none => ((none, none), cache, 0)
  | some geotags =>
    let coords := get_coordinates geotags
    match coords.1, coords.2 with
    | some lat, some lon =>
      if lat ≠ 0 ∧ lon ≠ 0 then lookup_coords geo cache lat lon
      else ((none, none), cache, 0)
    | _, _ => ((none, none), cache, 0)

/-- A run of reverse-geocode lookups sharing one cache, as performed by the
per-file scan loop: each coordinate pair goes through the cache logic of
`extract_location_from_exif`; the total number of geocoder invocations is
accumulated. -/
def geocode_run (geo : Geo) : List (ℚ × ℚ) → Cache → Cache × Nat
  | [], cache => (cache, 0)
  | (lat, lon) :: rest, cache =>
    let r := lookup_coords geo cache lat lon
    let r2 := geocode_run geo rest r.2.1
    (r2.1, r.2.2 + r2.2)

/-- Per-file record built by `FileInfo.__init__` (photos.py lines 30-58).
Capture timestamps are modelled as integers (seconds, order-preserving
encoding, see `parse_exif_datetime`). -/
structure FileInfo where
  full_path : String
  name : String
  exif : Option Exif
  exif_mod_date : Option Int
  file_mod_date : Option Int
  location : Option Loc
  errors : List String
deriving DecidableEq, Repr

/-- Default `FileInfo` used to totalize Python list indexing; every indexed
access in the embedded functions is guarded in bounds, as in the source. -/
def fdflt : FileInfo :=
  { full_path := "", name := "", exif := none, exif_mod_date := none,
    file_mod_date := none, location := none, errors := [] }

/-- Embeds `FileInfo.get_mod_date` (photos.py lines 63-64):
`exif_mod_date if exif_mod_date else file_mod_date`. -/
def FileInfo.get_mod_date (f : FileInfo) : Option Int :=
  match f.exif_mod_date with
  | some t => some t
  | none => f.file_mod_date

/-- Embeds `FileInfo.is_processable` (photos.py lines 69-70). -/
def FileInfo.is_processable (f : FileInfo) : Bool :=
  f.get_mod_date.isSome

/-- The capture timestamp with the (unreachable on processable records)
default 0; Python would raise `TypeError` on a `None` operand instead. -/
def mdD (f : FileInfo) : Int :=
  f.get_mod_date.getD 0

/-- Embeds `FileInfo.get_location_place` (photos.py lines 105-129).  Note the
source sanitizes only the composed city/place branch; the free-text fallback
`self.location.address` is returned unmodified. -/
def FileInfo.get_location_place (f : FileInfo) : String :=
  match f.location with
  | none => "Unknown"
  | some loc =>
    let addr := loc.raw
    let place := find_place addr ["theme_park", "museum", "beach", "suburb"]
    let city := find_place addr (city_places_for addr place)
    if strTruthy place = false ∧ strTruthy city = false then loc.address
    else
      let city_str :=
        if strTruthy city then (if strTruthy place then city.getD "" ++ "-" else city.getD "")
        else ""
      let place_str := if strTruthy place then place.getD "" else ""
      sanitize (city_str ++ place_str)

/-- Model of Python `str.lower` (ASCII case folding suffices for the uses in
the source: extension comparison). -/
def str_to_lower (s : String) : String :=
  String.mk (s.data.map Char.toLower)

/-- Model of Python `str.endswith` for one suffix. -/
def str_ends_with (s suffix : String) : Bool :=
  suffix.data == s.data.drop (s.data.length - suffix.data.length)

/-- Split a character list on a separator character; models Python
`str.split(sep)` / `String.splitOn` for the single-character separators used
by the source's date parsing and path handling. -/
def splitOnChar (sep : Char) : List Char → List (List Char)
  | [] => [[]]
  | c :: rest =>
    let r := splitOnChar sep rest
    if c = sep then [] :: r
    else
      match r with
      | h :: t => (c :: h) :: t
      | [] => [[c]]

/-- Parse a non-empty all-digit character list as a natural number. -/
def charsToNat? (l : List Char) : Option Nat :=
  if l ≠ [] ∧ l.all (fun c => c.isDigit) then
    some (l.foldl (fun n c => n * 10 + (c.toNat - 48)) 0)
  else none

/-- Parse and order-encode an EXIF `DateTime` string.  Models
`datetime.strptime(s, "%Y:%m:%d %H:%M:%S")` (photos.py line 99): the fixed
pattern is validated and the six fields are packed into one integer so that
the encoding is strictly monotone in the calendar order and exact (in seconds)
within a day; month lengths are approximated by 31 days, which only stretches
cross-month differences and is irrelevant to the claims. -/
def parse_exif_datetime (s : String) : Option Int :=
  match splitOnChar ' ' s.data with
  | [date_part, time_part] =>
    match splitOnChar ':' date_part, splitOnChar ':' time_part with
    | [ys, mos, ds], [hs, mis, ss] =>
      match charsToNat? ys, charsToNat? mos, charsToNat? ds,
        charsToNat? hs, charsToNat? mis, charsToNat? ss with
      | some y, some mo, some da, some h, some mi, some se =>
        if 1 ≤ mo ∧ mo ≤ 12 ∧ 1 ≤ da ∧ da ≤ 31 ∧ h ≤ 23 ∧ mi ≤ 59 ∧ se ≤ 59 then
          some (((((y : Int) * 12 + ((mo : Int) - 1)) * 31 + ((da : Int) - 1)) * 86400)
            + (h : Int) * 3600 + (mi : Int) * 60 + (se : Int))
        else none
      | _, _, _, _, _, _ => none
    | _, _ => none
  | _ => none

/-- Model of the image file handed to `PIL.Image.open`: either opening raises
(corrupt or unreadable file) or it yields an image whose `_getexif()` returns
the decoded EXIF dict, or `None` when the file carries no EXIF payload. -/
structure Pimage where
  exifData : Option Exif
deriving DecidableEq, Repr

/-- Model of one file on disk as seen by `FileInfo.__init__`: its path, the
outcome of `Image.open` on it, and the outcome of `os.stat` (the mtime
timestamp). -/
structure SrcFile where
  path : String
  openResult : Except String Pimage
  statResult : Except String Int
deriving Repr

/-- Embeds `FileInfo.extract_exif` (photos.py lines 72-85).  Only the
`Image.open` call sits inside the `try`; reading the EXIF payload happens in
the `else` block, so `img._getexif()` returning `None` (a JPEG without EXIF)
raises an uncaught `AttributeError`, modelled as the outer `Except.error`. -/
def extract_exif (f : SrcFile) : Except String (Option Exif × Option String) :=
  if str_ends_with (str_to_lower f.path) ".jpg" ∨ str_ends_with (str_to_lower f.path) ".jpeg" then
    match f.openResult with
    | Except.error err => Except.ok (none, some err)
    | Except.ok img =>
      match img.exifData with
      | some e => Except.ok (some e, none)
      | none => Except.error "AttributeError"
  else Except.ok (none, none)

/-- Embeds `FileInfo.extract_date_from_exif` (photos.py lines 96-103). -/
def extract_date_from_exif (exif : Option Exif) : Option Int × Option String :=
  match exif with
  | some e =>
    match e.dateTime with
    | some s =>
      match parse_exif_datetime s with
      | some t => (some t, none)
      | none => (none, some ("time data " ++ s ++ " does not match format"))
    | none => (none, none)
  | none => (none, none)

/-- Embeds `FileInfo.extract_file_datetime` (photos.py lines 87-94). -/
def extract_file_datetime (f : SrcFile) : Option Int × Option String :=
  match f.statResult with
  | Except.error err => (none, some err)
  | Except.ok t => (some t, none)

/-- Model of `os.path.basename`. -/
def basename (p : String) : String :=
  String.mk ((splitOnChar '/' p.data).getLastD p.data)

/-- Turns an optional error into the list of errors it contributes. -/
def optToList : Option String → List String
  | some e => [e]
  | none => []

/-- Embeds `FileInfo.__init__` (photos.py lines 31-58): the four extraction
steps in order, each recorded error appended to `errors`; an exception escaping
a step (only possible from `extract_exif`) propagates as `Except.error`.
Returns the record together with the updated geocoding cache. -/
def mkFileInfo (geo : Geo) (cache : Cache) (f : SrcFile) : Except String (FileInfo × Cache) :=
  match extract_exif f with
  | Except.error e => Except.error e
  | Except.ok (exif, err1) =>
    let dr := extract_date_from_exif exif
    let fr := extract_file_datetime f
    match exif with
    | some e =>
      let r := extract_location_from_exif geo cache e
      Except.ok
        ({ full_path := f.path, name := basename f.path, exif := exif,
           exif_mod_date := dr.1, file_mod_date := fr.1, location := r.1.1,
           errors := optToList err1 ++ optToList dr.2 ++ optToList fr.2 ++ optToList r.1.2 },
         r.2.1)
    | none =>
      Except.ok
        ({ full_path := f.path, name := basename f.path, exif := none,
           exif_mod_date := dr.1, file_mod_date := fr.1, location := none,
           errors := optToList err1 ++ optToList dr.2 ++ optToList fr.2 },
         cache)

/-- Embeds the scan loop of `retrieve_file_info` (photos.py lines 160-162):
build a `FileInfo` per file in order, threading the cache.  An exception from
one construction propagates (in the source it escapes `retrieve_file_info` and
is caught only by `main`, aborting the scan of the remaining files). -/
def scan_files (geo : Geo) : List SrcFile → Cache → Except String (List FileInfo × Cache)
  | [], cache => Except.ok ([], cache)
  | f :: rest, cache =>
    match mkFileInfo geo cache f with
    | Except.error e => Except.error e
    | Except.ok (fi, cache2) =>
      match scan_files geo rest cache2 with
      | Except.error e => Except.error e
      | Except.ok (others, cache3) => Except.ok (fi :: others, cache3)

/-- Embeds `check_and_update_location` (photos.py lines 213-216).  Python's
`divmod(diff.total_seconds(), 60)[0]` is floor division; for the positive
divisor 60 the Euclidean division of `Int` agrees with floor division. -/
def check_and_update_location (diff : Int) (files : List FileInfo) (i : Nat) (loc : Option Loc) :
    List FileInfo :=
  let mins := diff / 60
  if mins < 30 then files.set i { files.getD i fdflt with location := loc }
  else files

/-- Auxiliary loop of `find_next_with_loc` over the remaining suffix. -/
def find_next_aux : List FileInfo → Option (Int × Loc)
  | [] => none
  | f :: rest =>
    match f.location with
    | some l => some (mdD f, l)
    | none => find_next_aux rest

/-- Embeds `find_next_with_loc` (photos.py lines 206-210): first record at
index ≥ `start` with a (truthy) location, returning its capture time and
location; `none` models the `(None, None)` return. -/
def find_next_with_loc (files : List FileInfo) (start : Nat) : Option (Int × Loc) :=
  find_next_aux (files.drop start)

/-- Embeds `find_location_around` (photos.py lines 192-203): backward borrow
from the immediate predecessor, then — only if the record still has no
location — forward borrow from the nearest located successor. -/
def find_location_around (files : List FileInfo) (i : Nat) : List FileInfo :=
  let files1 :=
    if 0 < i then
      check_and_update_location (mdD (files.getD i fdflt) - mdD (files.getD (i - 1) fdflt))
        files i (files.getD (i - 1) fdflt).location
    else files
  if (files1.getD i fdflt).location = none ∧ i < files1.length - 1 then
    match find_next_with_loc files1 (i + 1) with
    | some (after_dt, loc) =>
      check_and_update_location (after_dt - mdD (files1.getD i fdflt)) files1 i (some loc)
    | none => files1
  else files1

/-- The index loop of `fix_locations` (photos.py lines 182-187), running
`find_location_around` at each index whose record lacks a location. -/
def fix_from (files : List FileInfo) (i : Nat) : Nat → List FileInfo
  | 0 => files
  | steps + 1 =>
    let files2 :=
      if (files.getD i fdflt).location = none then find_location_around files i else files
    fix_from files2 (i + 1) steps

/-- Embeds `fix_locations` (photos.py lines 179-189): stable sort by capture
time, then the interpolation pass. -/
def fix_locations (processable : List FileInfo) : List FileInfo :=
  let sorted := processable.mergeSort (fun a b => mdD a ≤ mdD b)
  fix_from sorted 0 sorted.length

/-- The parsed command-line options (photos.py lines 132-154). -/
structure Options where
  dir : String
  force : Bool
  dry_run : Bool
deriving DecidableEq, Repr

/-- Accumulator loop modelling argparse consumption of the argument vector for
the three declared options. -/
def parse_args_loop : List String → Option String → Bool → Bool → Option Options
  | [], dir, force, dry =>
    match dir with
    | some d => some { dir := d, force := force, dry_run := dry }
    | none => none
  | a :: rest, dir, force, dry =>
    if a = "-d" ∨ a = "--dir" then
      match rest with
      | v :: rest2 => parse_args_loop rest2 (some v) force dry
      | [] => none
    else if a = "-f" ∨ a = "--force" ∨ a = "--no-confirmation" then
      parse_args_loop rest dir true dry
    else if a = "--dry-run" then
      parse_args_loop rest dir force true
    else none

/-- Embeds `parse_args` (photos.py lines 132-154): `--dir` is required and
takes a value; `--force` is declared `store_true` with `default=True`, so its
accumulator starts `true` and is only ever set `true`; `--dry-run` is
`store_true` with the default `False`.  `none` models an argparse error exit
(missing required argument, missing value, unrecognized argument); argparse
refinements such as `--dir=value` or prefix abbreviation do not affect the
force accumulator and are not modelled. -/
def parse_args (args : List String) : Option Options :=
  parse_args_loop args none true false

/-- Whether `retrieve_file_info` (photos.py line 175) reaches the interactive
`confirm()` prompt: `options.force or confirm()` short-circuits, so the prompt
runs exactly when `force` is falsy. -/
def confirm_invoked (options : Options) : Bool :=
  !options.force

/-- Model of the filesystem state touched by `move_files`: existing directory
paths and existing file paths. -/
structure Fs where
  dirs : List String
  files : List String
deriving DecidableEq, Repr

/-- Model of `os.path.exists`. -/
def fsExists (fs : Fs) (p : String) : Bool :=
  fs.dirs.contains p ∨ fs.files.contains p

/-- Model of `os.mkdir`. -/
def fsMkdir (fs : Fs) (d : String) : Fs :=
  { fs with dirs := fs.dirs ++ [d] }

/-- Model of `shutil.move`: the source path disappears, the destination path
appears. -/
def fsMove (fs : Fs) (src dst : String) : Fs :=
  { fs with files := fs.files.erase src ++ [dst] }

/-- Model of `os.path.join` for the two-component uses in the source. -/
def joinPath (a b : String) : String :=
  a ++ "/" ++ b

/-- Embeds `strftime("%Y-%m-%d")` on the encoded timestamp: an injective
rendering of the calendar day (the textual `YYYY-MM-DD` shape is abstracted;
two timestamps get the same rendering exactly when they fall on the same
encoded day). -/
def formatDate (t : Int) : String :=
  toString (t / 86400)

/-- Embeds `FileInfo.format_mod_date` (photos.py lines 66-67). -/
def FileInfo.format_mod_date (f : FileInfo) : String :=
  match f.get_mod_date with
  | some t => formatDate t
  | none => "None"

/-- Insertion-ordered dict update: apply `u` to the binding of `k` (seeded
with `d` when absent), keeping Python dict iteration order. -/
def upd_assoc {α : Type} : List (String × α) → String → α → (α → α) → List (String × α)
  | [], k, d, u => [(k, u d)]
  | (k2, v) :: rest, k, d, u =>
    if k2 = k then (k2, u v) :: rest else (k2, v) :: upd_assoc rest k d u

/-- Embeds the grouping loop of `move_files` (photos.py lines 220-230):
date string → place string → ordered file list. -/
def group_files (files : List FileInfo) : List (String × List (String × List FileInfo)) :=
  files.foldl
    (fun g f =>
      upd_assoc g f.format_mod_date []
        (fun sub => upd_assoc sub f.get_location_place [] (fun l => l ++ [f])))
    []

/-- Embeds `move_files` (photos.py lines 219-249) as a transformer of the
filesystem state: group, then create the per-date and per-place directories
(when not already existing) and move each file — each mutation guarded by
`not options.dry_run`. -/
def move_files (files : List FileInfo) (directory : String) (options : Options) (fs : Fs) : Fs :=
  let groups := group_files files
  groups.foldl
    (fun fs1 kd =>
      let sub_dir_date := joinPath directory kd.1
      let fs2 :=
        if options.dry_run = false ∧ fsExists fs1 sub_dir_date = false then
          fsMkdir fs1 sub_dir_date
        else fs1
      kd.2.foldl
        (fun fs3 kl =>
          let sub_dir_loc := joinPath sub_dir_date kl.1
          let fs4 :=
            if options.dry_run = false ∧ fsExists fs3 sub_dir_loc = false then
              fsMkdir fs3 sub_dir_loc
            else fs3
          kl.2.foldl
            (fun fs5 f =>
              if options.dry_run = false then
                fsMove fs5 f.full_path (joinPath sub_dir_loc f.name)
              else fs5)
            fs4)
        fs2)
    fs

/-! Concrete inputs used by the witness and counterexample theorems. -/

/-- A zero DMS triple: 0 degrees, 0 minutes, 0 seconds (the equator or the
prime meridian), each component the EXIF rational 0/1. -/
def zeroDms : ExifRat × ExifRat × ExifRat := (⟨0, 1⟩, ⟨0, 1⟩, ⟨0, 1⟩)

/-- The DMS triple for exactly one degree. -/
def oneDms : ExifRat × ExifRat × ExifRat := (⟨1, 1⟩, ⟨0, 1⟩, ⟨0, 1⟩)

/-- A geocoder that finds no address: `geolocator.reverse` returns `None`. -/
def geoNone : Geo := fun _ _ => Except.ok none

/-- A resolved location with a museum and a city component. -/
def locParis : Loc :=
  { address := "Louvre, Paris, France", raw := [("museum", "Louvre"), ("city", "Paris")] }

/-- A geocoder that always resolves to `locParis`. -/
def geoParis : Geo := fun _ _ => Except.ok (some locParis)

/-- A resolved location with neither an interesting place nor a city
component, only the free-text address (which contains a dot). -/
def locFree : Loc := { address := "5 Rue X. Paris", raw := [] }

/-- A resolved location whose museum component contains a dot. -/
def locChicago : Loc :=
  { address := "Chicago, USA",
    raw := [("museum", "Art Inst. of Chicago"), ("city", "Chicago")] }

/-- A second city-only location. -/
def locRome : Loc := { address := "Rome, Italy", raw := [("city", "Rome")] }

/-- A JPEG file that opens successfully but carries no EXIF payload:
`img._getexif()` returns `None`. -/
def fBad : SrcFile :=
  { path := "/p/a.jpg", openResult := Except.ok { exifData := none },
    statResult := Except.ok 0 }

/-- A non-JPEG file (no embedded-metadata parse is attempted for it). -/
def fPng : SrcFile :=
  { path := "/p/b.png", openResult := Except.error "x", statResult := Except.ok 1 }

/-- A record resolved to `locParis`. -/
def fiParis : FileInfo := { fdflt with location := some locParis }

/-- An EXIF block whose latitude converts to exactly 0 (equator) and whose
longitude converts to 1. -/
def eZeroLat : Exif :=
  { dateTime := none,
    gpsInfo := some { gpsLatitude := some zeroDms, gpsLatitudeRef := some "N",
                      gpsLongitude := some oneDms, gpsLongitudeRef := some "E" } }

/-- Located record at capture time 0 (seconds). -/
def wA : FileInfo :=
  { fdflt with full_path := "/d/a.jpg", name := "a.jpg", exif_mod_date := some 0,
               location := some locParis }

/-- Unlocated record 29 minutes (1740 s) after `wA`. -/
def wB29 : FileInfo :=
  { fdflt with full_path := "/d/b.jpg", name := "b.jpg", exif_mod_date := some 1740 }

/-- Unlocated record exactly 30 minutes (1800 s) after `wA`. -/
def wB30 : FileInfo :=
  { fdflt with full_path := "/d/b.jpg", name := "b.jpg", exif_mod_date := some 1800 }

/-- Unlocated record at capture time 600 s. -/
def vB : FileInfo :=
  { fdflt with full_path := "/d/v.jpg", name := "v.jpg", exif_mod_date := some 600 }

/-- Record located at `locRome`, capture time 900 s. -/
def vC : FileInfo :=
  { fdflt with full_path := "/d/w.jpg", name := "w.jpg", exif_mod_date := some 900,
               location := some locRome }

section Theorems

attribute [local semireducible] Rat.mul Rat.add Rat.inv Rat.sub

/-- List indexing after an in-bounds update returns the new element. -/
theorem getD_set_self {α : Type} (l : List α) (i : Nat) (a d : α) (h : i < l.length) :
    (l.set i a).getD i d = a := by
  induction l generalizing i with
  | nil => simp at h
  | cons x xs ih =>
    cases i with
    | zero => rfl
    | succ n => exact ih n (by simpa using h)

/-- A fold whose step function never changes the accumulator is the
identity. -/
theorem foldl_fixed {α β : Type} (g : β → α → β) (h : ∀ x a, g x a = x) :
    ∀ (l : List α) (b : β), l.foldl g b = b := by
  intro l
  induction l with
  | nil => intro b; rfl
  | cons x xs ih => intro b; rw [List.foldl_cons, h b x]; exact ih b

/-- Appending the empty string on the left is the identity. -/
theorem empty_append_str (s : String) : "" ++ s = s := by
  cases s
  rfl

/-- Appending the empty string on the right is the identity. -/
theorem append_empty_str (s : String) : s ++ "" = s := by
  cases s with
  | mk data => show String.mk (data ++ []) = String.mk data; rw [List.append_nil]

/-- The `force` accumulator of the argparse loop, once `true`, stays `true` in
any successful parse (strong induction on the length of the argument list). -/
theorem parse_args_loop_force_aux (n : Nat) :
    ∀ (args : List String), args.length ≤ n →
      ∀ (dir : Option String) (dry : Bool) (o : Options),
        parse_args_loop args dir true dry = some o → o.force = true := by
  induction n with
  | zero =>
    intro args hlen dir dry o h
    cases args with
    | nil =>
      unfold parse_args_loop at h
      cases dir with
      | some d => cases h; rfl
      | none => cases h
    | cons a rest => simp at hlen
  | succ n ih =>
    intro args hlen dir dry o h
    cases args with
    | nil =>
      unfold parse_args_loop at h
      cases dir with
      | some d => cases h; rfl
      | none => cases h
    | cons a rest =>
      unfold parse_args_loop at h
      split_ifs at h with h1 h2 h3
      · cases rest with
        | nil => cases h
        | cons v rest2 =>
          exact ih rest2 (by simp at hlen; omega) (some v) dry o h
      · exact ih rest (by simp at hlen; omega) dir dry o h
      · exact ih rest (by simp at hlen; omega) dir true o h

/-- The `force` accumulator of `parse_args_loop`, started `true`, is `true` in
every successfully parsed result. -/
theorem parse_args_loop_force (args : List String) (dir : Option String) (dry : Bool)
    (o : Options) (h : parse_args_loop args dir true dry = some o) : o.force = true :=
  parse_args_loop_force_aux args.length args le_rfl dir dry o h

/-- C7: with the dry-run flag set, `move_files` performs the grouping but
leaves the filesystem state exactly as it was: no directory is created and no
file is moved. -/
theorem C7_dry_run_no_mutation (files : List FileInfo) (directory d : String) (frc : Bool)
    (fs : Fs) :
    move_files files directory { dir := d, force := frc, dry_run := true } fs = fs := by
  unfold move_files
  refine foldl_fixed _ ?_ _ _
  intro fs1 kd
  dsimp only
  rw [if_neg (by simp)]
  refine foldl_fixed _ ?_ _ _
  intro fs3 kl
  dsimp only
  rw [if_neg (by simp)]
  refine foldl_fixed _ ?_ _ _
  intro fs5 f
  rw [if_neg (by simp)]

/-- C9: every argument vector accepted by `parse_args` yields options with
`force = true` (the flag is `store_true` with default `True`), so the
interactive confirmation prompt is never invoked. -/
theorem C9_force_always_true (args : List String) (o : Options)
    (h : parse_args args = some o) :
    o.force = true ∧ confirm_invoked o = false := by
  have hf : o.force = true := parse_args_loop_force args none false o h
  exact ⟨hf, by unfold confirm_invoked; rw [hf]; rfl⟩

/-- Witness for C9 at the concrete argument vector `["-d", "photos"]`. -/
theorem C9_force_always_true_witness :
    ({ dir := "photos", force := true, dry_run := false } : Options).force = true
    ∧ confirm_invoked { dir := "photos", force := true, dry_run := false } = false :=
  C9_force_always_true ["-d", "photos"]
    { dir := "photos", force := true, dry_run := false } (by decide)

/-- C2 counterexample: for a record whose address has neither a place nor a
city component, `get_location_place` returns the free-text address string
unchanged, not (as the claim states) with `/`, `.` and `:` replaced by `-`:
at the address `"5 Rue X. Paris"` the claimed output would be
`"5 Rue X- Paris"`, but the code returns the raw string. -/
theorem C2_fallback_not_sanitized_cex :
    FileInfo.get_location_place { fdflt with location := some locFree } = "5 Rue X. Paris"
    ∧ sanitize "5 Rue X. Paris" = "5 Rue X- Paris"
    ∧ ("5 Rue X. Paris" : String) ≠ "5 Rue X- Paris" :=
  ⟨by decide, by decide, by decide⟩

/-- C2 (amended): for a record whose resolved address yields no truthy place
among theme_park, museum, beach, suburb and no truthy city component,
`get_location_place` returns the full free-text address string unchanged (the
sanitizing replacement of `/`, `.`, `:` is applied only on the place/city
branch). -/
theorem C2_fallback_address (f : FileInfo) (loc : Loc) (hf : f.location = some loc)
    (hplace : strTruthy (find_place loc.raw ["theme_park", "museum", "beach", "suburb"]) = false)
    (hcity : strTruthy (find_place loc.raw
      (city_places_for loc.raw
        (find_place loc.raw ["theme_park", "museum", "beach", "suburb"]))) = false) :
    f.get_location_place = loc.address := by
  unfold FileInfo.get_location_place
  rw [hf]
  dsimp only
  rw [if_pos ⟨hplace, hcity⟩]

/-- Witness for C2 at the concrete record resolved to `locFree`. -/
theorem C2_fallback_address_witness :
    FileInfo.get_location_place { fdflt with location := some locFree } = "5 Rue X. Paris" :=
  C2_fallback_address { fdflt with location := some locFree } locFree rfl
    (by decide) (by decide)

/-- C6 counterexample: when both a place and a city are found, the PlaceName
is not the plain `city + "-" + place`: the source also replaces `/`, `.`, `:`
by `-` in it.  With museum `"Art Inst. of Chicago"` and city `"Chicago"` the
code yields `"Chicago-Art Inst- of Chicago"`, not
`"Chicago-Art Inst. of Chicago"`. -/
theorem C6_priority_cex :
    FileInfo.get_location_place { fdflt with location := some locChicago }
      = "Chicago-Art Inst- of Chicago"
    ∧ ("Chicago-Art Inst- of Chicago" : String) ≠ "Chicago-Art Inst. of Chicago" :=
  ⟨by decide, by decide⟩

/-- C6 (amended): `get_location_place` selects `place` as the first match
among theme_park, museum, beach, suburb (in that order), selects `city` from
the list built by `city_places_for` (village, town, city, with suburb
prepended exactly when present and different from `place`), and returns
`city ++ "-" ++ place` when both are (truthily) found, or the one found
alone — in each case with `/`, `.`, `:` replaced by `-`. -/
theorem C6_priority (f : FileInfo) (loc : Loc) (hf : f.location = some loc)
    (place city : Option String)
    (hplace : find_place loc.raw ["theme_park", "museum", "beach", "suburb"] = place)
    (hcity : find_place loc.raw (city_places_for loc.raw place) = city) :
    (∀ p c, place = some p → p ≠ "" → city = some c → c ≠ "" →
      f.get_location_place = sanitize (c ++ "-" ++ p))
    ∧ (∀ p, place = some p → p ≠ "" → strTruthy city = false →
      f.get_location_place = sanitize p)
    ∧ (∀ c, strTruthy place = false → city = some c → c ≠ "" →
      f.get_location_place = sanitize c) := by
  unfold FileInfo.get_location_place
  rw [hf]
  dsimp only
  rw [hplace, hcity]
  refine ⟨?_, ?_, ?_⟩
  · intro p c hp hpne hc hcne
    subst hp; subst hc
    have htp : strTruthy (some p) = true := by simp [strTruthy, hpne]
    have htc : strTruthy (some c) = true := by simp [strTruthy, hcne]
    rw [if_neg (by simp [htp]), htc, htp]
    simp only [if_pos, Option.getD_some]
  · intro p hp hpne hcf
    subst hp
    have htp : strTruthy (some p) = true := by simp [strTruthy, hpne]
    rw [if_neg (by simp [htp]), hcf, htp]
    simp only [if_pos, Option.getD_some, if_neg (Bool.false_ne_true)]
    rw [empty_append_str]
  · intro c hpf hc hcne
    subst hc
    have htc : strTruthy (some c) = true := by simp [strTruthy, hcne]
    rw [if_neg (by simp [htc]), hpf, htc]
    simp only [if_pos, Option.getD_some, if_neg (Bool.false_ne_true)]
    rw [append_empty_str]

/-- Witness for C6 at the concrete record resolved to `locParis`
(museum Louvre, city Paris): the PlaceName is `"Paris-Louvre"`. -/
theorem C6_priority_witness : fiParis.get_location_place = "Paris-Louvre" :=
  (C6_priority fiParis locParis rfl (some "Louvre") (some "Paris") rfl rfl).1
    "Louvre" "Paris" rfl (by decide) rfl (by decide)

/-- C10: a converted decimal latitude or longitude equal to exactly 0 is
treated as an absent coordinate pair by `extract_location_from_exif` (Python
truthiness of `0.0`): no geocoder call, no cache write, location left absent —
and an absent location is formatted as `"Unknown"` by `get_location_place` at
grouping time. -/
theorem C10_zero_coordinate_absent (geo : Geo) (cache : Cache) (e : Exif) (g : Geotags)
    (hg : e.gpsInfo = some g)
    (h0 : (get_coordinates g).1 = some 0 ∨ (get_coordinates g).2 = some 0) :
    extract_location_from_exif geo cache e = ((none, none), cache, 0)
    ∧ ∀ f : FileInfo, f.location = none → f.get_location_place = "Unknown" := by
  constructor
  · rcases hlat : (get_coordinates g).1 with _ | la <;>
      rcases hlon : (get_coordinates g).2 with _ | lo
    · simp [extract_location_from_exif, get_geotagging, hg, hlat, hlon]
    · simp [extract_location_from_exif, get_geotagging, hg, hlat, hlon]
    · simp [extract_location_from_exif, get_geotagging, hg, hlat, hlon]
    · rcases h0 with h | h
      · rw [hlat] at h
        injection h with h
        subst h
        simp [extract_location_from_exif, get_geotagging, hg, hlat, hlon]
      · rw [hlon] at h
        injection h with h
        subst h
        simp [extract_location_from_exif, get_geotagging, hg, hlat, hlon]
  · intro f hf
    unfold FileInfo.get_location_place
    rw [hf]

/-- Witness for C10 at the concrete EXIF block `eZeroLat` (latitude exactly 0,
longitude 1) with the geocoder `geoParis` and an empty cache. -/
theorem C10_zero_coordinate_absent_witness :
    extract_location_from_exif geoParis [] eZeroLat = ((none, none), [], 0)
    ∧ FileInfo.get_location_place fdflt = "Unknown" := by
  have h := C10_zero_coordinate_absent geoParis [] eZeroLat
    { gpsLatitude := some zeroDms, gpsLatitudeRef := some "N",
      gpsLongitude := some oneDms, gpsLongitudeRef := some "E" } rfl (Or.inl (by decide))
  exact ⟨h.1, h.2 fdflt rfl⟩

/-- C4: for capture-time-sorted records, a record without a location whose
capture time is strictly less than 30 minutes (1800 s) after its immediately
preceding located record inherits that record's location through
`find_location_around`; at a gap of exactly 30 minutes or more the backward
borrow step `check_and_update_location` leaves the list unchanged, so the
record does not inherit from that neighbor. -/
theorem C4_window_boundary (files : List FileInfo) (i : Nat) (l : Loc) (ti tp : Int)
    (hi0 : 0 < i) (hil : i < files.length)
    (hnone : (files.getD i fdflt).location = none)
    (hprev : (files.getD (i - 1) fdflt).location = some l)
    (hti : (files.getD i fdflt).get_mod_date = some ti)
    (htp : (files.getD (i - 1) fdflt).get_mod_date = some tp) :
    (ti - tp < 1800 → ((find_location_around files i).getD i fdflt).location = some l)
    ∧ (1800 ≤ ti - tp → check_and_update_location (ti - tp) files i (some l) = files) := by
  have hmdi : mdD (files.getD i fdflt) = ti := by unfold mdD; rw [hti]; rfl
  have hmdp : mdD (files.getD (i - 1) fdflt) = tp := by unfold mdD; rw [htp]; rfl
  constructor
  · intro hlt
    have hdiv : (ti - tp) / 60 < 30 := by omega
    have hcu : check_and_update_location (ti - tp) files i (some l)
        = files.set i { files.getD i fdflt with location := some l } := by
      unfold check_and_update_location
      exact if_pos hdiv
    have hset : (files.set i { files.getD i fdflt with location := some l }).getD i fdflt
        = { files.getD i fdflt with location := some l } :=
      getD_set_self files i _ fdflt hil
    unfold find_location_around
    rw [if_pos hi0, hprev, hmdi, hmdp, hcu]
    dsimp only
    rw [hset, if_neg (by simp), hset]
  · intro hge
    unfold check_and_update_location
    exact if_neg (by omega)

/-- Witness for C4: a record 29 minutes (1740 s) after the located `wA`
inherits `locParis`; at exactly 30 minutes (1800 s) the backward borrow leaves
the list unchanged. -/
theorem C4_window_boundary_witness :
    ((find_location_around [wA, wB29] 1).getD 1 fdflt).location = some locParis
    ∧ check_and_update_location (1800 - 0) [wA, wB30] 1 (some locParis) = [wA, wB30] :=
  ⟨(C4_window_boundary [wA, wB29] 1 locParis 1740 0 (by decide) (by decide)
      rfl rfl rfl rfl).1 (by decide),
   (C4_window_boundary [wA, wB30] 1 locParis 1800 0 (by decide) (by decide)
      rfl rfl rfl rfl).2 (by decide)⟩

/-- C5: when a record lacking a location has both a qualifying backward
neighbor (immediately preceding located record within 30 minutes) and a
qualifying forward neighbor (nearest subsequent located record within
30 minutes), `find_location_around` adopts the backward neighbor's location,
and its result is exactly the backward step `check_and_update_location` — the
forward scan contributes nothing. -/
theorem C5_backward_precedence (files : List FileInfo) (i : Nat) (lb lf : Loc)
    (ti tp ta : Int)
    (hi0 : 0 < i) (hil : i < files.length)
    (hnone : (files.getD i fdflt).location = none)
    (hprev : (files.getD (i - 1) fdflt).location = some lb)
    (hti : (files.getD i fdflt).get_mod_date = some ti)
    (htp : (files.getD (i - 1) fdflt).get_mod_date = some tp)
    (hback : ti - tp < 1800)
    (hfwd : find_next_with_loc files (i + 1) = some (ta, lf))
    (hta : ta - ti < 1800) :
    ((find_location_around files i).getD i fdflt).location = some lb
    ∧ find_location_around files i = check_and_update_location (ti - tp) files i (some lb) := by
  have hmdi : mdD (files.getD i fdflt) = ti := by unfold mdD; rw [hti]; rfl
  have hmdp : mdD (files.getD (i - 1) fdflt) = tp := by unfold mdD; rw [htp]; rfl
  have hdiv : (ti - tp) / 60 < 30 := by omega
  have hcu : check_and_update_location (ti - tp) files i (some lb)
      = files.set i { files.getD i fdflt with location := some lb } := by
    unfold check_and_update_location
    exact if_pos hdiv
  have hset : (files.set i { files.getD i fdflt with location := some lb }).getD i fdflt
      = { files.getD i fdflt with location := some lb } :=
    getD_set_self files i _ fdflt hil
  unfold find_location_around
  rw [if_pos hi0, hprev, hmdi, hmdp, hcu]
  dsimp only
  rw [hset, if_neg (by simp)]
  exact ⟨by rw [hset], rfl⟩

/-- Witness for C5: the unlocated `vB` (600 s) sits between `wA` (0 s, Paris)
and `vC` (900 s, Rome); both neighbors qualify and the backward `locParis`
wins. -/
theorem C5_backward_precedence_witness :
    ((find_location_around [wA, vB, vC] 1).getD 1 fdflt).location = some locParis :=
  (C5_backward_precedence [wA, vB, vC] 1 locParis locRome 600 0 900 (by decide) (by decide)
    rfl rfl rfl rfl (by decide) rfl (by decide)).1

/-- After a dict assignment, lookup of the same key returns the stored
value. -/
theorem cacheFind_cacheSet_self (c : Cache) (k : ℚ × ℚ) (v : Option Loc) :
    cacheFind (cacheSet c k v) k = some v := by
  induction c with
  | nil => simp [cacheSet, cacheFind]
  | cons hd tl ih =>
    obtain ⟨k2, w⟩ := hd
    unfold cacheSet
    by_cases h : k2 = k
    · rw [if_pos h]
      unfold cacheFind
      rw [if_pos h]
    · rw [if_neg h]
      unfold cacheFind
      rw [if_neg h]
      exact ih

/-- A run over coordinate pairs that all fall in a cache key whose stored
value is a real location performs no geocoder invocation and leaves the cache
unchanged: every lookup is a truthy hit. -/
theorem geocode_run_all_hits (geo : Geo) (ps : List (ℚ × ℚ)) (k : ℚ × ℚ) (l : Loc)
    (c : Cache) (hkey : ∀ p ∈ ps, create_cache_loc_key p.1 p.2 = k)
    (hc : cacheFind c k = some (some l)) :
    geocode_run geo ps c = (c, 0) := by
  induction ps with
  | nil => rfl
  | cons p rest ih =>
    obtain ⟨lat, lon⟩ := p
    have hk := hkey (lat, lon) (List.mem_cons_self _ _)
    dsimp only at hk
    have hfind : find_cache_location c lat lon = some l := by
      unfold find_cache_location
      rw [hk, hc]
    unfold geocode_run lookup_coords
    rw [hfind]
    dsimp only
    rw [ih (fun q hq => hkey q (List.mem_cons_of_mem _ hq))]
    rfl

/-- C3 (amended): during one run, lookups whose coordinates round to the same
cache key invoke the geocoder at most once, provided the geocoder resolves
those coordinates to a (non-null) location; the first miss stores the result
and every later lookup is a cache hit.  (When the geocoder returns null the
stored null fails the truthiness test and the adapter is invoked again — see
the counterexample.) -/
theorem C3_cache_single_call (geo : Geo) (ps : List (ℚ × ℚ)) (k : ℚ × ℚ) (c : Cache)
    (hkey : ∀ p ∈ ps, create_cache_loc_key p.1 p.2 = k)
    (hgeo : ∀ p ∈ ps, ∃ l, geo p.1 p.2 = Except.ok (some l)) :
    (geocode_run geo ps c).2 ≤ 1 := by
  revert hkey hgeo
  induction ps generalizing c with
  | nil => exact fun _ _ => Nat.zero_le 1
  | cons p rest ih =>
    intro hkey hgeo
    obtain ⟨lat, lon⟩ := p
    have hk := hkey (lat, lon) (List.mem_cons_self _ _)
    dsimp only at hk
    rcases hfc : find_cache_location c lat lon with _ | cl
    · obtain ⟨l, hl⟩ := hgeo (lat, lon) (List.mem_cons_self _ _)
      dsimp only at hl
      have hsaved : cacheFind (save_cache_location c lat lon (some l)) k = some (some l) := by
        unfold save_cache_location
        rw [hk]
        exact cacheFind_cacheSet_self c k (some l)
      have hrest : geocode_run geo rest (save_cache_location c lat lon (some l))
          = (save_cache_location c lat lon (some l), 0) :=
        geocode_run_all_hits geo rest k l _
          (fun q hq => hkey q (List.mem_cons_of_mem _ hq)) hsaved
      unfold geocode_run lookup_coords
      rw [hfc, hl]
      dsimp only
      rw [hrest]
      exact Nat.le_refl 1
    · unfold geocode_run lookup_coords
      rw [hfc]
      dsimp only
      rw [Nat.zero_add]
      exact ih c (fun q hq => hkey q (List.mem_cons_of_mem _ hq))
        (fun q hq => hgeo q (List.mem_cons_of_mem _ hq))

/-- Witness for C3 at the coordinate pairs (47.123, 19.456) and
(47.124, 19.459), which both round to the key (47.12, 19.46), with a geocoder
that resolves them to `locParis` and an empty initial cache. -/
theorem C3_cache_single_call_witness :
    (geocode_run geoParis [(47123/1000, 19456/1000), (47124/1000, 19459/1000)] []).2 ≤ 1 :=
  C3_cache_single_call geoParis [(47123/1000, 19456/1000), (47124/1000, 19459/1000)]
    (create_cache_loc_key (47123/1000) (19456/1000)) []
    (by decide) (fun p _ => ⟨locParis, rfl⟩)

/-- C3 counterexample: when the geocoder finds no address (`reverse` returns
`None`), the stored null fails the `if cached_location:` truthiness test, so a
second lookup with the identical coordinates — hence the identical rounded
key — invokes the adapter again: two invocations for one key, refuting
"at most once per key". -/
theorem C3_cache_single_call_cex :
    (geocode_run geoNone [(1, 1), (1, 1)] []).2 = 2 := by decide

/-- C1 (code bug evaluation): a JPEG that opens successfully but carries no
EXIF payload makes `img._getexif()` return `None`; the `.items()` call on it
raises an uncaught `AttributeError` outside the `try` of `extract_exif`, so
the scan aborts and the next file is never processed — the error is not
recorded on the record and the run does not continue, contrary to the claim.
The same file list without the EXIF-less JPEG is processed normally. -/
theorem C1_absent_exif_aborts_scan :
    scan_files geoNone [fBad, fPng] [] = Except.error "AttributeError"
    ∧ scan_files geoNone [fPng] []
      = Except.ok ([{ full_path := "/p/b.png", name := "b.png", exif := none,
                      exif_mod_date := none, file_mod_date := some 1, location := none,
                      errors := [] }], []) :=
  ⟨rfl, rfl⟩

/-- Bridge between the computable `Rat.floor` and Mathlib's floor. -/
theorem rat_floor_eq_int_floor (q : ℚ) : (Rat.floor q : ℤ) = ⌊q⌋ := by
  rw [Rat.floor_def]
  exact Rat.floor_def' q

/-- The half-to-even rounding of `q` lies within one half of `q`. -/
theorem round_half_to_even_bounds (q : ℚ) :
    q - 1/2 ≤ (round_half_to_even q : ℚ) ∧ (round_half_to_even q : ℚ) ≤ q + 1/2 := by
  have h1 : (⌊q⌋ : ℚ) ≤ q := Int.floor_le q
  have h2 : q < ⌊q⌋ + 1 := Int.lt_floor_add_one q
  unfold round_half_to_even
  rw [rat_floor_eq_int_floor]
  dsimp only
  split_ifs with ha hb hc <;> constructor <;> push_cast <;> linarith

/-- Rounding to `k` decimal places never exceeds an integer upper bound of the
argument. -/
theorem pyround_le (k : Nat) (b : ℤ) (q : ℚ) (h : q ≤ (b : ℚ)) : pyround k q ≤ (b : ℚ) := by
  have hpow : (0 : ℚ) < (10 ^ k : ℚ) := by positivity
  have hub := (round_half_to_even_bounds (q * (10 ^ k : ℚ))).2
  have hm : q * (10 ^ k : ℚ) ≤ (b : ℚ) * (10 ^ k : ℚ) :=
    mul_le_mul_of_nonneg_right h hpow.le
  have hzi : round_half_to_even (q * (10 ^ k : ℚ)) ≤ b * 10 ^ k := by
    have hq : (round_half_to_even (q * (10 ^ k : ℚ)) : ℚ) < ((b * 10 ^ k : ℤ) : ℚ) + 1 := by
      push_cast
      linarith
    exact Int.lt_add_one_iff.mp (by exact_mod_cast hq)
  unfold pyround
  rw [div_le_iff₀ hpow]
  calc (round_half_to_even (q * (10 ^ k : ℚ)) : ℚ) ≤ ((b * 10 ^ k : ℤ) : ℚ) := by
        exact_mod_cast hzi
    _ = (b : ℚ) * (10 ^ k : ℚ) := by push_cast; ring

/-- Rounding to `k` decimal places never goes below an integer lower bound of
the argument. -/
theorem pyround_ge (k : Nat) (b : ℤ) (q : ℚ) (h : (b : ℚ) ≤ q) : (b : ℚ) ≤ pyround k q := by
  have hpow : (0 : ℚ) < (10 ^ k : ℚ) := by positivity
  have hlb := (round_half_to_even_bounds (q * (10 ^ k : ℚ))).1
  have hm : (b : ℚ) * (10 ^ k : ℚ) ≤ q * (10 ^ k : ℚ) :=
    mul_le_mul_of_nonneg_right h hpow.le
  have hzi : b * 10 ^ k ≤ round_half_to_even (q * (10 ^ k : ℚ)) := by
    have hq : ((b * 10 ^ k : ℤ) : ℚ) - 1 < (round_half_to_even (q * (10 ^ k : ℚ)) : ℚ) := by
      push_cast
      linarith
    have := Int.sub_one_lt_iff.mp (by exact_mod_cast hq)
    exact_mod_cast this
  unfold pyround
  rw [le_div_iff₀ hpow]
  calc (b : ℚ) * (10 ^ k : ℚ) = ((b * 10 ^ k : ℤ) : ℚ) := by push_cast; ring
    _ ≤ (round_half_to_even (q * (10 ^ k : ℚ)) : ℚ) := by exact_mod_cast hzi

/-- C8 (amended): for valid DMS triples (nonnegative numerators, positive
denominators, unrounded sum at most 180 degrees), `get_decimal_from_dms`
returns `d + m/60 + s/3600` rounded to 5 decimal places, negated for 'S'/'W';
the result is nonnegative (not necessarily strictly positive — see the
counterexample) and at most 180 for 'N'/'E', nonpositive and at least -180
for 'S'/'W'. -/
theorem C8_dms_sign_and_range (d m s : ExifRat) (ref : String)
    (hdn : 0 ≤ d.num) (hdd : 0 < d.den) (hmn : 0 ≤ m.num) (hmd : 0 < m.den)
    (hsn : 0 ≤ s.num) (hsd : 0 < s.den)
    (hV : (d.num : ℚ) / (d.den : ℚ) + (m.num : ℚ) / (m.den : ℚ) / 60
      + (s.num : ℚ) / (s.den : ℚ) / 3600 ≤ 180) :
    (ref = "N" ∨ ref = "E" →
      get_decimal_from_dms (d, m, s) ref
        = pyround 5 ((d.num : ℚ) / (d.den : ℚ) + (m.num : ℚ) / (m.den : ℚ) / 60
            + (s.num : ℚ) / (s.den : ℚ) / 3600)
      ∧ 0 ≤ get_decimal_from_dms (d, m, s) ref
      ∧ get_decimal_from_dms (d, m, s) ref ≤ 180)
    ∧ (ref = "S" ∨ ref = "W" →
      get_decimal_from_dms (d, m, s) ref
        = pyround 5 (-((d.num : ℚ) / (d.den : ℚ) + (m.num : ℚ) / (m.den : ℚ) / 60
            + (s.num : ℚ) / (s.den : ℚ) / 3600))
      ∧ get_decimal_from_dms (d, m, s) ref ≤ 0
      ∧ -180 ≤ get_decimal_from_dms (d, m, s) ref) := by
  have hdq : (0 : ℚ) ≤ (d.num : ℚ) / (d.den : ℚ) :=
    div_nonneg (by exact_mod_cast hdn) (by exact_mod_cast hdd.le)
  have hmq : (0 : ℚ) ≤ (m.num : ℚ) / (m.den : ℚ) / 60 :=
    div_nonneg (div_nonneg (by exact_mod_cast hmn) (by exact_mod_cast hmd.le)) (by norm_num)
  have hsq : (0 : ℚ) ≤ (s.num : ℚ) / (s.den : ℚ) / 3600 :=
    div_nonneg (div_nonneg (by exact_mod_cast hsn) (by exact_mod_cast hsd.le)) (by norm_num)
  have hVnn : (0 : ℚ) ≤ (d.num : ℚ) / (d.den : ℚ) + (m.num : ℚ) / (m.den : ℚ) / 60
      + (s.num : ℚ) / (s.den : ℚ) / 3600 := by linarith
  constructor
  · intro h
    have hne : ¬(ref = "S" ∨ ref = "W") := by
      rcases h with h | h <;> subst h <;> decide
    unfold get_decimal_from_dms
    dsimp only
    rw [if_neg hne]
    refine ⟨rfl, ?_, ?_⟩
    · exact_mod_cast pyround_ge 5 0 _ (by exact_mod_cast hVnn)
    · exact_mod_cast pyround_le 5 180 _ (by exact_mod_cast hV)
  · intro h
    have hyes : ref = "S" ∨ ref = "W" := h
    unfold get_decimal_from_dms
    dsimp only
    rw [if_pos hyes]
    have harg : -((d.num : ℚ) / (d.den : ℚ)) + -((m.num : ℚ) / (m.den : ℚ) / 60)
        + -((s.num : ℚ) / (s.den : ℚ) / 3600)
        = -((d.num : ℚ) / (d.den : ℚ) + (m.num : ℚ) / (m.den : ℚ) / 60
            + (s.num : ℚ) / (s.den : ℚ) / 3600) := by ring
    rw [harg]
    refine ⟨rfl, ?_, ?_⟩
    · exact_mod_cast pyround_le 5 0 _ (by exact_mod_cast neg_nonpos.mpr hVnn)
    · exact_mod_cast pyround_ge 5 (-180) _ (by exact_mod_cast neg_le_neg hV)

/-- Witness for C8 at the DMS triple 47 degrees, 30 minutes, 0 seconds with
reference 'S': the result is nonpositive and at least -180. -/
theorem C8_dms_sign_and_range_witness :
    get_decimal_from_dms (⟨47, 1⟩, ⟨30, 1⟩, ⟨0, 1⟩) "S" ≤ 0
    ∧ -180 ≤ get_decimal_from_dms (⟨47, 1⟩, ⟨30, 1⟩, ⟨0, 1⟩) "S" := by
  have h := (C8_dms_sign_and_range ⟨47, 1⟩ ⟨30, 1⟩ ⟨0, 1⟩ "S"
    (by decide) (by decide) (by decide) (by decide) (by decide) (by decide)
    (by decide)).2 (Or.inl rfl)
  exact ⟨h.2.1, h.2.2⟩

/-- C8 counterexample: the valid DMS triple 0 degrees, 0 minutes, 0 seconds
(the equator) with reference 'N' converts to exactly 0, which is not
positive — refuting the strict "positive for 'N'/'E'" part of the claim. -/
theorem C8_dms_positive_cex :
    get_decimal_from_dms zeroDms "N" = 0 ∧ ¬(0 < get_decimal_from_dms zeroDms "N") :=
  ⟨by decide, by decide⟩

end Theorems


end Photos
